import Mathlib

/-!
Verification development for the signal admission-control pipeline of the
trading_bot_ml repository.

Each Python class that the claims touch is embedded as a Lean structure
holding the mutable state of the object, and each method as a pure function
of that state (plus the ambient inputs the method reads: the current clock,
fetched market data, broker views).  Python floats are modelled as `ℚ`,
`datetime` values as rational second timestamps, Python dicts as association
lists, and fallible lookups as `Option`.

Sources embedded:
  * src/analysis/mtf_analyzer.py      (MultiTimeframeAnalyzer)
  * src/analysis/signal_aggregator.py (SignalAggregator)
  * src/core/global_strategy_cooldown.py (GlobalStrategyCooldown)
  * src/core/correlation_manager.py   (CorrelationManager)
  * src/core/equity_monitor.py        (EquityMonitor)
-/

/-- Per-timeframe directional bias, the `'bias'` values of mtf_analyzer.py. -/
inductive Bias
  | bullish
  | bearish
  | neutral
deriving DecidableEq, Repr

/-- Approved trade direction, the `'buy'` / `'sell'` strings of
`analyze_all_timeframes`. -/
inductive TradeDir
  | buy
  | sell
deriving DecidableEq, Repr

/-- Direction a non-neutral bias approves (`'bullish'` maps to `'buy'`,
`'bearish'` to `'sell'`; neutral approves nothing). -/
def Bias.toDir : Bias → Option TradeDir
  | .bullish => some .buy
  | .bearish => some .sell
  | .neutral => none

/-- The last indicator row of a fetched dataframe, after
`calculate_timeframe_indicators` and `dropna` (mtf_analyzer.py lines
173-187 and 222).  Floats are modelled as rationals. -/
structure TFRow where
  ema_21 : ℚ
  ema_50 : ℚ
  ema_100 : ℚ
  macd : ℚ
  macd_signal : ℚ
  rsi : ℚ
  adx : ℚ
deriving DecidableEq, Repr

/-- One entry of `MultiTimeframeAnalyzer.timeframes` (mtf_analyzer.py lines
59-114): the active flag, refresh cadence (seconds) and the cached analysis.
The `indicators` cache dict is omitted: it is write-only diagnostics. -/
structure TFState where
  active : Bool
  update_interval : ℚ
  last_update : Option ℚ
  bias : Bias
  strength : ℚ
deriving DecidableEq, Repr

/-- EMA component of the v7.1 score (mtf_analyzer.py lines 227-241),
weight 50%, sensitivity multiplier 200. -/
def ema_score (r : TFRow) : ℚ :=
  if r.ema_21 > r.ema_50 ∧ r.ema_50 > r.ema_100 then
    min (50/100) ((r.ema_21 - r.ema_50) / r.ema_50 * 200)
  else if r.ema_21 < r.ema_50 ∧ r.ema_50 < r.ema_100 then
    -(min (50/100) ((r.ema_50 - r.ema_21) / r.ema_50 * 200))
  else 0

/-- MACD component of the v7.1 score (mtf_analyzer.py lines 244-257),
weight 30%, weighted by the line difference. -/
def macd_score (r : TFRow) : ℚ :=
  if r.macd > r.macd_signal ∧ r.macd > 0 then
    min (30/100) (|r.macd - r.macd_signal| * (1/2))
  else if r.macd < r.macd_signal ∧ r.macd < 0 then
    -(min (30/100) (|r.macd - r.macd_signal| * (1/2)))
  else 0

/-- RSI component of the v7.1 score (mtf_analyzer.py lines 260-268),
weight 20%. -/
def rsi_score (r : TFRow) : ℚ :=
  if r.rsi > 60 then min (20/100) ((r.rsi - 50) / 100)
  else if r.rsi < 40 then -(min (20/100) ((50 - r.rsi) / 100))
  else 0

/-- ADX strength modulator (mtf_analyzer.py lines 271-279): it scales the
score but never zeroes it. -/
def adx_multiplier (r : TFRow) : ℚ :=
  if r.adx < 15 then 1/2
  else if r.adx < 25 then 80/100
  else 1

/-- Total v7.1 score of a timeframe (mtf_analyzer.py line 282). -/
def total_score (r : TFRow) : ℚ :=
  (ema_score r + macd_score r + rsi_score r) * adx_multiplier r

/-- Bias decided from the total score with the ±0.05 threshold
(mtf_analyzer.py lines 285-293). -/
def bias_of_score (s : ℚ) : Bias :=
  if s > 5/100 then .bullish
  else if s < -(5/100) then .bearish
  else .neutral

/-- State of `MultiTimeframeAnalyzer`: the ordered timeframe table.  The
`stats` counters are omitted: they never feed back into any decision. -/
structure MultiTimeframeAnalyzer where
  timeframes : List (String × TFState)

/-- A market-data fetch outcome for one timeframe: `none` models
`copy_rates_from_pos` failing (or raising), `some (n, row)` a dataframe of
`n` raw rows whose post-indicator last row is `row`
(`get_timeframe_data`, mtf_analyzer.py lines 159-171). -/
def FetchFun : Type := String → Option (Nat × TFRow)

/-- Bias produced by `analyze_single_timeframe` (mtf_analyzer.py lines
189-318) for one timeframe: reuse the cache while it is fresh, otherwise
analyse the fetched data; a failed fetch or fewer than 50 rows yields
neutral (lines 216-219).  The cache write-back is not modelled: within one
`analyze_all_timeframes` pass each timeframe is analysed once, so the
write-back cannot influence the verdict under study. -/
def analyze_single_bias (now : ℚ) (st : TFState) (fetched : Option (Nat × TFRow)) : Bias :=
  let cache_fresh : Bool :=
    match st.last_update with
    | none => false
    | some lu => decide (now - lu < st.update_interval)
  if cache_fresh then st.bias
  else
    match fetched with
    | none => .neutral
    | some (n, row) => if n < 50 then .neutral else bias_of_score (total_score row)

/-- `get_active_timeframes` (mtf_analyzer.py lines 155-157), keeping the
state paired with each name (the source returns names and re-indexes the
dict). -/
def MultiTimeframeAnalyzer.get_active_timeframes (a : MultiTimeframeAnalyzer) :
    List (String × TFState) :=
  a.timeframes.filter (fun p => p.2.active)

/-- The `biases` list accumulated by `analyze_all_timeframes`
(mtf_analyzer.py lines 346-352): one bias per active timeframe. -/
def MultiTimeframeAnalyzer.bias_summary (a : MultiTimeframeAnalyzer) (now : ℚ)
    (fetch : FetchFun) : List Bias :=
  a.get_active_timeframes.map (fun p => analyze_single_bias now p.2 (fetch p.1))

/-- Consensus verdict of `analyze_all_timeframes` (mtf_analyzer.py lines
320-390): the approved flag and direction (the remaining dict entries are
diagnostics). -/
structure MTFVerdict where
  approved : Bool
  direction : Option TradeDir
deriving DecidableEq, Repr

/-- `analyze_all_timeframes` (mtf_analyzer.py lines 320-390): with zero
active timeframes everything is blocked; otherwise approve BUY when every
active bias is bullish, SELL when every active bias is bearish, and block
any mixture or neutral. -/
def MultiTimeframeAnalyzer.analyze_all_timeframes (a : MultiTimeframeAnalyzer)
    (now : ℚ) (fetch : FetchFun) : MTFVerdict :=
  let active := a.get_active_timeframes
  if active.length = 0 then
    { approved := false, direction := none }
  else
    let biases := a.bias_summary now fetch
    let all_bullish := biases.all (fun b => b == .bullish)
    let all_bearish := biases.all (fun b => b == .bearish)
    if all_bullish then { approved := true, direction := some .buy }
    else if all_bearish then { approved := true, direction := some .sell }
    else { approved := false, direction := none }

/-- One per-strategy record of `GlobalStrategyCooldown`
(global_strategy_cooldown.py lines 31-59): the configured cooldown in
minutes, the last-operation timestamp (seconds, `None` before the first
operation) and the allowed/blocked counters.  The three source dicts share
the same fixed key set for the lifetime of the object, so they are merged
into one association list. -/
structure CooldownEntry where
  cooldown : ℚ
  last_op : Option ℚ
  allowed : Nat
  blocked : Nat
deriving DecidableEq, Repr

/-- State of `GlobalStrategyCooldown`. -/
structure GlobalStrategyCooldown where
  entries : List (String × CooldownEntry)
deriving DecidableEq, Repr

/-- Reason variants returned by `can_operate` (the source returns formatted
strings; only the branch identity matters). -/
inductive CooldownReason
  | unknown_strategy
  | first_operation
  | cooldown_complete
  | in_cooldown
deriving DecidableEq, Repr

/-- `GlobalStrategyCooldown.can_operate` (global_strategy_cooldown.py lines
66-100): unknown strategies are allowed, a strategy with no recorded
operation is allowed, otherwise allowed iff the elapsed minutes reach the
configured cooldown. -/
def GlobalStrategyCooldown.can_operate (g : GlobalStrategyCooldown)
    (strategy : String) (now : ℚ) : Bool × CooldownReason × ℚ :=
  match g.entries.lookup strategy with
  | none => (true, .unknown_strategy, 0)
  | some e =>
    match e.last_op with
    | none => (true, .first_operation, 0)
    | some last =>
      let elapsed_minutes := (now - last) / 60
      if elapsed_minutes ≥ e.cooldown then (true, .cooldown_complete, 0)
      else (false, .in_cooldown, e.cooldown - elapsed_minutes)

/-- Point update of an association list at an existing key; keys not present
are left untouched (the dict-assignment paths of the source are always
guarded by a membership test). -/
def assoc_set (l : List (String × CooldownEntry)) (k : String) (v : CooldownEntry) :
    List (String × CooldownEntry) :=
  l.map (fun p => if p.1 = k then (p.1, v) else p)

/-- `GlobalStrategyCooldown.register_operation` (global_strategy_cooldown.py
lines 102-121): unknown strategies are ignored; otherwise the last-operation
timestamp is stamped to `now` and the allowed counter incremented. -/
def GlobalStrategyCooldown.register_operation (g : GlobalStrategyCooldown)
    (strategy : String) (now : ℚ) : GlobalStrategyCooldown :=
  match g.entries.lookup strategy with
  | none => g
  | some e =>
    { entries := assoc_set g.entries strategy
        { e with last_op := some now, allowed := e.allowed + 1 } }

/-- The `stats[strategy]['allowed']` counter (0 for unknown strategies). -/
def GlobalStrategyCooldown.allowed_count (g : GlobalStrategyCooldown)
    (strategy : String) : Nat :=
  match g.entries.lookup strategy with
  | none => 0
  | some e => e.allowed

/-- The `__init__` state of `GlobalStrategyCooldown`
(global_strategy_cooldown.py lines 28-59). -/
def GlobalStrategyCooldown.init : GlobalStrategyCooldown :=
  { entries :=
      [("ml", ⟨15, none, 0, 0⟩),
       ("sr", ⟨20, none, 0, 0⟩),
       ("fibo", ⟨30, none, 0, 0⟩),
       ("price_action", ⟨20, none, 0, 0⟩),
       ("candlestick", ⟨60, none, 0, 0⟩),
       ("liquidity", ⟨30, none, 0, 0⟩)] }

/-- A candidate trading signal as built by `collect_all_signals`
(signal_aggregator.py lines 121-206): the dict keys the pipeline reads.
`sl_pips` is optional because downstream reads use `.get('sl_pips', 70)`;
`timestamp` is optional because `is_signal_expired` guards on its
presence. -/
structure Signal where
  strategy : String
  signal : Int
  confidence : ℚ
  sl_pips : Option ℚ
  priority : Int
  timestamp : Option ℚ
deriving DecidableEq, Repr

/-- One value of the bot's `active_trades` dict as read by the limiter and
the correlation manager: every field is read through `.get`, so each is
optional. -/
structure TradeInfo where
  strategy : Option String
  signal : Option Int
  sl_pips : Option ℚ
deriving DecidableEq, Repr

/-- `SignalAggregator.is_signal_expired` (signal_aggregator.py lines
79-101): a signal without a timestamp is expired; otherwise expired iff its
age in minutes strictly exceeds the timeout. -/
def SignalAggregator.is_signal_expired (timeout_minutes : ℚ) (now : ℚ)
    (s : Signal) : Bool :=
  match s.timestamp with
  | none => true
  | some t => decide ((now - t) / 60 > timeout_minutes)

/-- `MAX_POSITIONS_PER_STRATEGY` (config.py lines 309-316). -/
def MAX_POSITIONS_PER_STRATEGY : List (String × Nat) :=
  [("ml", 2), ("sr", 2), ("fibo", 2), ("price_action", 2),
   ("candlestick", 1), ("liquidity", 3)]

/-- Number of entries of `active_trades_dict` attributed to a strategy
(signal_aggregator.py lines 484-485): values whose `'strategy'` field equals
the given name. -/
def strategy_count (trades : List TradeInfo) (strategy : String) : Nat :=
  (trades.filter (fun t => t.strategy == some strategy)).length

/-- The ordering key of the final sort (signal_aggregator.py line 514):
ascending `priority`, and descending `confidence` inside one priority
tier. -/
def prio_le (a b : Signal) : Prop :=
  a.priority < b.priority ∨ (a.priority = b.priority ∧ b.confidence ≤ a.confidence)

instance : DecidableRel prio_le := fun a b => by
  unfold prio_le; infer_instance

instance : IsTotal Signal prio_le where
  total a b := by
    unfold prio_le
    rcases lt_trichotomy a.priority b.priority with h | h | h
    · exact Or.inl (Or.inl h)
    · rcases le_total a.confidence b.confidence with hc | hc
      · exact Or.inr (Or.inr ⟨h.symm, hc⟩)
      · exact Or.inl (Or.inr ⟨h, hc⟩)
    · exact Or.inr (Or.inl h)

instance : IsTrans Signal prio_le where
  trans a b c hab hbc := by
    unfold prio_le at *
    rcases hab with h1 | ⟨h1, h1c⟩
    · rcases hbc with h2 | ⟨h2, _⟩
      · exact Or.inl (h1.trans h2)
      · exact Or.inl (h2 ▸ h1)
    · rcases hbc with h2 | ⟨h2, h2c⟩
      · exact Or.inl (h1 ▸ h2)
      · exact Or.inr ⟨h1.trans h2, h2c.trans h1c⟩

/-- The BUY accumulation loop of FILTRO 4 (signal_aggregator.py lines
481-493): append each buy signal whose strategy is below its per-strategy
cap while a global slot remains. -/
def process_buy_signals (mx : List (String × Nat)) (trades : List TradeInfo)
    (total_open max_total : Nat) : List Signal → List Signal → List Signal
  | [], acc => acc
  | s :: rest, acc =>
    let active_count := strategy_count trades s.strategy
    let max_allowed := (mx.lookup s.strategy).getD 2
    let acc' :=
      if active_count < max_allowed ∧ total_open + acc.length < max_total then
        acc ++ [s]
      else acc
    process_buy_signals mx trades total_open max_total rest acc'

/-- The SELL accumulation loop of FILTRO 4 (signal_aggregator.py lines
496-511): like the BUY loop but with an early `break` when the global slot
budget is exhausted. -/
def process_sell_signals (mx : List (String × Nat)) (trades : List TradeInfo)
    (total_open max_total : Nat) : List Signal → List Signal → List Signal
  | [], acc => acc
  | s :: rest, acc =>
    if total_open + acc.length ≥ max_total then acc
    else
      let active_count := strategy_count trades s.strategy
      let max_allowed := (mx.lookup s.strategy).getD 2
      let acc' :=
        if active_count < max_allowed ∧ total_open + acc.length < max_total then
          acc ++ [s]
        else acc
      process_sell_signals mx trades total_open max_total rest acc'

/-- FILTRO 4 of `filter_and_prioritize` (signal_aggregator.py lines
465-520): return `[]` when the global cap is already reached; otherwise
accumulate buy signals then sell signals under the per-strategy caps and the
remaining global slots, stable-sort the result by `(priority, -confidence)`
(Python `list.sort` is stable; `List.insertionSort` is the corresponding
stable sort), and truncate to the remaining slots. -/
def position_limit (mx : List (String × Nat)) (signals : List Signal)
    (total_open : Nat) (trades : List TradeInfo) (max_total : Nat) : List Signal :=
  if total_open ≥ max_total then []
  else
    let buys := signals.filter (fun s => s.signal == 1)
    let sells := signals.filter (fun s => s.signal == -1)
    let after_buys := process_buy_signals mx trades total_open max_total buys []
    let after_all := process_sell_signals mx trades total_open max_total sells after_buys
    let sorted := List.insertionSort prio_le after_all
    sorted.take (max_total - total_open)

/-- State of `SignalAggregator` (signal_aggregator.py lines 29-63) as far as
`filter_and_prioritize` reads it. -/
structure SignalAggregator where
  mtf_enabled : Bool
  mtf_analyzer : Option MultiTimeframeAnalyzer
  global_cooldown : Option GlobalStrategyCooldown
  signal_timeout_minutes : ℚ
  max_positions_per_strategy : List (String × Nat)

/-- FILTRO 1 of `filter_and_prioritize` (signal_aggregator.py lines
339-368): drop expired signals. -/
def SignalAggregator.stage_fresh (ag : SignalAggregator) (now : ℚ)
    (signals : List Signal) : List Signal :=
  signals.filter
    (fun s => !(SignalAggregator.is_signal_expired ag.signal_timeout_minutes now s))

/-- FILTRO 2 of `filter_and_prioritize` (signal_aggregator.py lines
373-404): drop signals whose strategy is in cooldown, when a cooldown
system is wired. -/
def SignalAggregator.stage_cooldown (ag : SignalAggregator) (now : ℚ)
    (signals : List Signal) : List Signal :=
  match ag.global_cooldown with
  | none => signals
  | some g => signals.filter (fun s => (g.can_operate s.strategy now).1)

/-- FILTRO 3 of `filter_and_prioritize` (signal_aggregator.py lines
409-463): when MTF is enabled and wired, keep only signals matching an
approved MTF direction and drop everything when the verdict is not
approved. -/
def SignalAggregator.mtf_keep (v : MTFVerdict) (signals : List Signal) : List Signal :=
  match v with
  | ⟨true, some .buy⟩ => signals.filter (fun s => s.signal == 1)
  | ⟨true, some .sell⟩ => signals.filter (fun s => s.signal == (-1 : Int))
  | _ => []

/-- FILTRO 3 continued: when MTF is enabled and an analyzer is wired, filter
through `mtf_keep` against the fresh verdict; otherwise pass everything. -/
def SignalAggregator.stage_mtf (ag : SignalAggregator) (now : ℚ)
    (fetch : FetchFun) (signals : List Signal) : List Signal :=
  if ag.mtf_enabled then
    match ag.mtf_analyzer with
    | none => signals
    | some a => SignalAggregator.mtf_keep (a.analyze_all_timeframes now fetch) signals
  else signals

/-- `SignalAggregator.filter_and_prioritize` (signal_aggregator.py lines
328-520): FILTRO 1 (freshness), FILTRO 2 (cooldown), FILTRO 3 (MTF
alignment), FILTRO 4 (position limits), with the source's early returns on
an emptied list.  `total_open` models `len(current_positions)`, the only
use the source makes of the raw MT5 position list here.  Logging and the
blocked-statistics increments are omitted: they do not feed back into any
pass decision. -/
def SignalAggregator.filter_and_prioritize (ag : SignalAggregator) (now : ℚ)
    (fetch : FetchFun) (signals : List Signal) (total_open : Nat)
    (trades : List TradeInfo) (max_total : Nat) : List Signal :=
  if signals.isEmpty then []
  else if (ag.stage_fresh now signals).isEmpty then []
  else if (ag.stage_cooldown now (ag.stage_fresh now signals)).isEmpty then []
  else
    position_limit ag.max_positions_per_strategy
      (ag.stage_mtf now fetch (ag.stage_cooldown now (ag.stage_fresh now signals)))
      total_open trades max_total

/-- `SignalAggregator.mark_signal_as_executed` (signal_aggregator.py lines
522-538) restricted to its cooldown effect: register the executed signal's
strategy in the global cooldown when one is wired. -/
def SignalAggregator.mark_signal_as_executed (g : Option GlobalStrategyCooldown)
    (s : Signal) (now : ℚ) : Option GlobalStrategyCooldown :=
  g.map (fun c => c.register_operation s.strategy now)

/-- Configuration of `CorrelationManager` (correlation_manager.py lines
23-29). -/
structure CorrelationManager where
  max_same_direction_trades : Nat
  min_sl_distance_pips : ℚ
  max_total_risk_pct : ℚ
deriving DecidableEq, Repr

/-- The `__init__` configuration of `CorrelationManager`. -/
def CorrelationManager.init : CorrelationManager :=
  { max_same_direction_trades := 999
    min_sl_distance_pips := 30
    max_total_risk_pct := 6 }

/-- Reason variants of `check_signal_correlation` (the source returns
formatted strings; only the branch identity matters). -/
inductive CorrReason
  | sl_cluster
  | total_risk
  | ok
deriving DecidableEq, Repr

/-- Open trades in the same direction whose stop distance is within the
tolerance band of the new signal's (correlation_manager.py lines 84-95). -/
def close_sl_count (cm : CorrelationManager) (new_direction : Int) (new_sl : ℚ)
    (trades : List TradeInfo) : Nat :=
  (trades.filter (fun t =>
    t.signal == some new_direction &&
      decide (|new_sl - t.sl_pips.getD 70| < cm.min_sl_distance_pips))).length

/-- Aggregate dollar risk of the open trades plus the new signal, at the
fixed risk unit of one dollar per stop pip (correlation_manager.py lines
107-119). -/
def aggregate_risk (new_sl : ℚ) (trades : List TradeInfo) : ℚ :=
  (trades.map (fun t => t.sl_pips.getD 70 * 1)).sum + new_sl * 1

/-- The total-risk step of `check_signal_correlation`
(correlation_manager.py lines 105-129): only checked when the balance is
positive; block when the aggregate risk percentage of the balance exceeds
the maximum. -/
def CorrelationManager.risk_step (cm : CorrelationManager) (new_sl : ℚ)
    (trades : List TradeInfo) (account_balance : ℚ) : Bool × CorrReason :=
  if account_balance > 0 then
    if aggregate_risk new_sl trades / account_balance * 100 > cm.max_total_risk_pct then
      (false, .total_risk)
    else (true, .ok)
  else (true, .ok)

/-- `CorrelationManager.check_signal_correlation` (correlation_manager.py
lines 45-134).  The direction-limit step (lines 64-76) is a commented-out
string literal in the source and so is absent here.  `active_positions`
models `len(active_positions)`: the raw MT5 position list is only tested
for emptiness.  The clustering step blocks when two or more open trades in
the same direction already sit within the stop-distance tolerance band;
otherwise the total-risk step decides. -/
def CorrelationManager.check_signal_correlation (cm : CorrelationManager)
    (new_signal : Signal) (active_positions : Nat) (trades : List TradeInfo)
    (account_balance : ℚ) : Bool × CorrReason :=
  if active_positions > 0 then
    if close_sl_count cm new_signal.signal (new_signal.sl_pips.getD 70) trades ≥ 2 then
      (false, .sl_cluster)
    else cm.risk_step (new_signal.sl_pips.getD 70) trades account_balance
  else cm.risk_step (new_signal.sl_pips.getD 70) trades account_balance

/-- Configuration of `EquityMonitor` (equity_monitor.py lines 31-40). -/
structure EquityConfig where
  defensive_drawdown_threshold : ℚ
  aggressive_winrate_threshold : ℚ
  defensive_lot_multiplier : ℚ
  defensive_confidence_boost : ℚ
  aggressive_lot_multiplier : ℚ
  aggressive_confidence_reduction : ℚ
deriving DecidableEq, Repr

/-- The `__init__` configuration of `EquityMonitor`. -/
def EquityConfig.init : EquityConfig :=
  { defensive_drawdown_threshold := 80
    aggressive_winrate_threshold := 70/100
    defensive_lot_multiplier := 1
    defensive_confidence_boost := 5/100
    aggressive_lot_multiplier := 12/10
    aggressive_confidence_reduction := 5/100 }

/-- The `'win'` result tag of trade history records. -/
def winTag : String := "win"

/-- One record of `memory.get_recent_trades` as read by
`calculate_current_metrics`: the `'result'` tag and the `'profit'` amount,
both read through `.get`. -/
structure TradeRecord where
  result : Option String
  profit : Option ℚ
deriving DecidableEq, Repr

/-- Trading modes of the equity monitor. -/
inductive TradingMode
  | normal
  | defensive
  | aggressive
deriving DecidableEq, Repr

/-- Running cumulative-profit series (equity_monitor.py lines 85-90): the
source walks `reversed(recent_trades)` (chronological order) accumulating
`profit` and recording each partial sum. -/
def cumulative_from (acc : ℚ) : List ℚ → List ℚ
  | [] => []
  | p :: rest => (acc + p) :: cumulative_from (acc + p) rest

/-- The `cumulative_profits` list for a recent-trades list (most recent
first, as `get_recent_trades` returns it). -/
def cumulative_profits (recent_trades : List TradeRecord) : List ℚ :=
  cumulative_from 0 (recent_trades.reverse.map (fun t => t.profit.getD 0))

/-- Python `max` over a nonempty list (0 for the empty list, which the
source never reaches on this path). -/
def list_max : List ℚ → ℚ
  | [] => 0
  | x :: xs => xs.foldl max x

/-- Metrics of `calculate_current_metrics` (equity_monitor.py lines
61-107). -/
structure EquityMetrics where
  drawdown_pct : ℚ
  winrate : ℚ
  trades_analyzed : Nat
deriving DecidableEq, Repr

/-- The drawdown computation of `calculate_current_metrics`
(equity_monitor.py lines 92-101): percentage fall of the cumulative-profit
series from its peak, taken as zero whenever the peak is not strictly
positive. -/
def drawdown_of (cum : List ℚ) : ℚ :=
  if cum.isEmpty then 0
  else if list_max cum > 0 then
    (list_max cum - cum.getLastD 0) / list_max cum * 100
  else 0

/-- `EquityMonitor.calculate_current_metrics` (equity_monitor.py lines
61-107): zero metrics with no history; otherwise the win rate over the
recent trades and the drawdown of their cumulative-profit series. -/
def calculate_current_metrics (recent_trades : List TradeRecord) : EquityMetrics :=
  if recent_trades.isEmpty then
    { drawdown_pct := 0, winrate := 0, trades_analyzed := 0 }
  else
    { drawdown_pct := drawdown_of (cumulative_profits recent_trades)
      winrate :=
        (((recent_trades.filter (fun t => t.result == some winTag)).length : ℚ) /
          (recent_trades.length : ℚ))
      trades_analyzed := recent_trades.length }

/-- `EquityMonitor.determine_trading_mode` (equity_monitor.py lines
109-150): defensive on high drawdown, else aggressive on high win rate with
drawdown under 5%, else normal. -/
def determine_trading_mode (cfg : EquityConfig) (recent_trades : List TradeRecord) :
    TradingMode :=
  if (calculate_current_metrics recent_trades).drawdown_pct ≥
      cfg.defensive_drawdown_threshold then .defensive
  else if (calculate_current_metrics recent_trades).winrate ≥
        cfg.aggressive_winrate_threshold ∧
      (calculate_current_metrics recent_trades).drawdown_pct < 5 then .aggressive
  else .normal

/-- `EquityMonitor.should_allow_trade` (equity_monitor.py lines 188-203):
recompute the mode, then allow unconditionally — the mode only flavours the
returned message. -/
def should_allow_trade (cfg : EquityConfig) (recent_trades : List TradeRecord) :
    Bool × TradingMode :=
  let mode := determine_trading_mode cfg recent_trades
  (true, mode)

/-- The PositionLimiter pipeline exactly as the specification words it
(spec §4.7, steps a-d): reject everything when the global cap is reached,
reject signals whose source is at its per-source cap, sort the survivors by
`(priority ascending, confidence descending)` and truncate to the remaining
global slots.  Stated for comparison against `position_limit`, which embeds
the source. -/
def spec_position_limiter (mx : List (String × Nat)) (signals : List Signal)
    (total_open : Nat) (trades : List TradeInfo) (max_total : Nat) : List Signal :=
  if total_open ≥ max_total then []
  else
    let survivors := signals.filter
      (fun s => strategy_count trades s.strategy < (mx.lookup s.strategy).getD 2)
    (List.insertionSort prio_le survivors).take (max_total - total_open)

/-- The CorrelationGuard rejection condition exactly as the claim words it:
accepting the finalist would push the count of similarly-stopped open
positions in the same direction to 2 or more (the new position joins the
cluster, so one existing similar position already suffices), or the summed
risk of the post-acceptance book divided by the balance would exceed the
maximum percentage.  Stated for comparison against
`CorrelationManager.check_signal_correlation`, which embeds the source. -/
def spec_correlation_reject (cm : CorrelationManager) (new_signal : Signal)
    (trades : List TradeInfo) (account_balance : ℚ) : Prop :=
  close_sl_count cm new_signal.signal (new_signal.sl_pips.getD 70) trades + 1 ≥ 2
  ∨ aggregate_risk (new_signal.sl_pips.getD 70) trades / account_balance * 100 >
      cm.max_total_risk_pct

/-- A fetch function modelling total provider failure. -/
def fetchNone : FetchFun := fun _ => none

/-- Timeframe name constants used by concrete instances. -/
def tfM30 : String := "M30"

/-- Timeframe name constant. -/
def tfH1 : String := "H1"

/-- A one-horizon analyzer whose single active timeframe holds a fresh
bullish cache. -/
def mtfC1 : MultiTimeframeAnalyzer :=
  { timeframes := [(tfM30, ⟨true, 60, some 0, Bias.bullish, 1/2⟩)] }

/-- The stale bullish-cached H1 state of the C4 witness analyzer. -/
def stC4 : TFState := ⟨true, 120, none, Bias.bullish, 0⟩

/-- A two-horizon analyzer: a fresh bullish M30 cache and an H1 horizon with
no cache, whose data fetch will fail. -/
def mtfC4 : MultiTimeframeAnalyzer :=
  { timeframes := [(tfM30, ⟨true, 60, some 0, Bias.bullish, 1/2⟩), (tfH1, stC4)] }

/-- Strategy name constants. -/
def strML : String := "ml"

/-- Strategy name constant. -/
def strSR : String := "sr"

/-- Strategy name constant. -/
def strLiquidity : String := "liquidity"

/-- A strategy name outside the configured set. -/
def strUnknown : String := "news"

/-- The fresh `'ml'` cooldown entry of the initial state. -/
def mlEntry : CooldownEntry := ⟨15, none, 0, 0⟩

/-- The aggregator configuration of the C3 witness: MTF off, no cooldown
wired, the source's 2-minute timeout and per-strategy caps. -/
def agC3 : SignalAggregator :=
  { mtf_enabled := false
    mtf_analyzer := none
    global_cooldown := none
    signal_timeout_minutes := 2
    max_positions_per_strategy := MAX_POSITIONS_PER_STRATEGY }

/-- A timestampless ML buy signal. -/
def sigC3 : Signal := ⟨strML, 1, 8/10, some 70, 1, none⟩

/-- A lower-priority SR buy signal collected before the higher-priority
liquidity one. -/
def sigA : Signal := ⟨strSR, 1, 6/10, some 70, 2, some 0⟩

/-- A higher-priority liquidity buy signal. -/
def sigB : Signal := ⟨strLiquidity, 1, 9/10, some 70, 1, some 0⟩

/-- An ML buy finalist with the default 70-pip stop. -/
def sigC6 : Signal := ⟨strML, 1, 8/10, some 70, 1, some 0⟩

/-- One open ML buy trade with a 70-pip stop. -/
def tradeC6 : TradeInfo := ⟨some strML, some 1, some 70⟩

/-- A losing trade record. -/
def tradeC10 : TradeRecord := ⟨none, some (-5)⟩

/-- Updating an association list at a key it holds yields that key bound to
the new value. -/
theorem lookup_assoc_set_self {l : List (String × CooldownEntry)} {k : String}
    {e v : CooldownEntry} (h : l.lookup k = some e) :
    (assoc_set l k v).lookup k = some v := by
  induction l with
  | nil => simp [List.lookup] at h
  | cons p rest ih =>
    obtain ⟨k1, e1⟩ := p
    by_cases hk : k1 = k
    · subst hk
      have hstep : assoc_set ((k1, e1) :: rest) k1 v = (k1, v) :: assoc_set rest k1 v := by
        simp [assoc_set]
      rw [hstep]
      simp [List.lookup]
    · have hbeq : (k == k1) = false := beq_eq_false_iff_ne.mpr (fun hh => hk hh.symm)
      have hstep : assoc_set ((k1, e1) :: rest) k v = (k1, e1) :: assoc_set rest k v := by
        simp [assoc_set, hk]
      rw [hstep]
      have hlk : List.lookup k ((k1, e1) :: assoc_set rest k v) =
          List.lookup k (assoc_set rest k v) := by
        simp [List.lookup, hbeq]
      rw [hlk]
      apply ih
      simpa [List.lookup, hbeq] using h

/-- Membership in the BUY accumulation loop: everything in the result was in
the accumulator or is an input buy signal below its per-strategy cap. -/
theorem mem_process_buy_signals {mx : List (String × Nat)} {trades : List TradeInfo}
    {total_open max_total : Nat} :
    ∀ (l acc : List Signal) (x : Signal),
      x ∈ process_buy_signals mx trades total_open max_total l acc →
      x ∈ acc ∨ (x ∈ l ∧
        strategy_count trades x.strategy < (mx.lookup x.strategy).getD 2) := by
  intro l
  induction l with
  | nil => intro acc x hx; exact Or.inl hx
  | cons s rest ih =>
    intro acc x hx
    simp only [process_buy_signals] at hx
    rcases ih _ x hx with hacc | ⟨hr, hcap⟩
    · by_cases hcond : strategy_count trades s.strategy <
        (mx.lookup s.strategy).getD 2 ∧ total_open + acc.length < max_total
      · rw [if_pos hcond] at hacc
        rcases List.mem_append.mp hacc with h | h
        · exact Or.inl h
        · have hxs : x = s := by simpa using h
          subst hxs
          exact Or.inr ⟨List.mem_cons_self _ _, hcond.1⟩
      · rw [if_neg hcond] at hacc
        exact Or.inl hacc
    · exact Or.inr ⟨List.mem_cons_of_mem _ hr, hcap⟩

/-- Membership in the SELL accumulation loop: same shape as the BUY loop,
with the early break. -/
theorem mem_process_sell_signals {mx : List (String × Nat)} {trades : List TradeInfo}
    {total_open max_total : Nat} :
    ∀ (l acc : List Signal) (x : Signal),
      x ∈ process_sell_signals mx trades total_open max_total l acc →
      x ∈ acc ∨ (x ∈ l ∧
        strategy_count trades x.strategy < (mx.lookup x.strategy).getD 2) := by
  intro l
  induction l with
  | nil => intro acc x hx; exact Or.inl hx
  | cons s rest ih =>
    intro acc x hx
    simp only [process_sell_signals] at hx
    by_cases hbrk : total_open + acc.length ≥ max_total
    · rw [if_pos hbrk] at hx
      exact Or.inl hx
    · rw [if_neg hbrk] at hx
      rcases ih _ x hx with hacc | ⟨hr, hcap⟩
      · by_cases hcond : strategy_count trades s.strategy <
          (mx.lookup s.strategy).getD 2 ∧ total_open + acc.length < max_total
        · rw [if_pos hcond] at hacc
          rcases List.mem_append.mp hacc with h | h
          · exact Or.inl h
          · have hxs : x = s := by simpa using h
            subst hxs
            exact Or.inr ⟨List.mem_cons_self _ _, hcond.1⟩
        · rw [if_neg hcond] at hacc
          exact Or.inl hacc
      · exact Or.inr ⟨List.mem_cons_of_mem _ hr, hcap⟩

/-- Everything kept by the position limiter came from its input and sits
below its per-strategy cap. -/
theorem mem_position_limit {mx : List (String × Nat)} {signals : List Signal}
    {total_open : Nat} {trades : List TradeInfo} {max_total : Nat} {x : Signal}
    (hx : x ∈ position_limit mx signals total_open trades max_total) :
    x ∈ signals ∧
      strategy_count trades x.strategy < (mx.lookup x.strategy).getD 2 := by
  unfold position_limit at hx
  by_cases hfull : total_open ≥ max_total
  · rw [if_pos hfull] at hx
    exact absurd hx (List.not_mem_nil x)
  · rw [if_neg hfull] at hx
    have hsort := List.mem_of_mem_take hx
    have hall : x ∈ process_sell_signals mx trades total_open max_total
        (signals.filter (fun s => s.signal == -1))
        (process_buy_signals mx trades total_open max_total
          (signals.filter (fun s => s.signal == 1)) []) :=
      (List.perm_insertionSort prio_le _).mem_iff.mp hsort
    rcases mem_process_sell_signals _ _ x hall with hbuy | ⟨hs, hcap⟩
    · rcases mem_process_buy_signals _ _ x hbuy with hnil | ⟨hb, hcap⟩
      · exact absurd hnil (List.not_mem_nil x)
      · exact ⟨List.mem_of_mem_filter hb, hcap⟩
    · exact ⟨List.mem_of_mem_filter hs, hcap⟩

/-- Everything kept by FILTRO 1 was an input signal and is not expired. -/
theorem mem_stage_fresh {ag : SignalAggregator} {now : ℚ} {signals : List Signal}
    {x : Signal} (hx : x ∈ ag.stage_fresh now signals) :
    x ∈ signals ∧
      SignalAggregator.is_signal_expired ag.signal_timeout_minutes now x = false := by
  refine ⟨List.mem_of_mem_filter hx, ?_⟩
  have := List.of_mem_filter hx
  simpa using this

/-- Everything kept by FILTRO 2 was an input signal and passed the cooldown
check of the wired cooldown system. -/
theorem mem_stage_cooldown {ag : SignalAggregator} {now : ℚ}
    {signals : List Signal} {x : Signal} (hx : x ∈ ag.stage_cooldown now signals) :
    x ∈ signals ∧
      ∀ g, ag.global_cooldown = some g → (g.can_operate x.strategy now).1 = true := by
  unfold SignalAggregator.stage_cooldown at hx
  cases hg : ag.global_cooldown with
  | none =>
    rw [hg] at hx
    exact ⟨hx, fun g hgg => by cases hgg⟩
  | some g =>
    rw [hg] at hx
    have hx' : x ∈ List.filter (fun s => (g.can_operate s.strategy now).1) signals := hx
    refine ⟨List.mem_of_mem_filter hx', fun g' hgg => ?_⟩
    have hg' : g = g' := Option.some.inj hgg
    subst hg'
    simpa using List.of_mem_filter hx'

/-- Everything kept by `mtf_keep` was an input signal. -/
theorem mem_mtf_keep {v : MTFVerdict} {signals : List Signal} {x : Signal}
    (hx : x ∈ SignalAggregator.mtf_keep v signals) : x ∈ signals := by
  obtain ⟨ap, dir⟩ := v
  cases ap with
  | false =>
    rcases dir with _ | d
    · simp [SignalAggregator.mtf_keep] at hx
    · cases d <;> simp [SignalAggregator.mtf_keep] at hx
  | true =>
    rcases dir with _ | d
    · simp [SignalAggregator.mtf_keep] at hx
    · cases d
      · exact List.mem_of_mem_filter hx
      · exact List.mem_of_mem_filter hx

/-- Everything kept by FILTRO 3 was an input signal. -/
theorem mem_stage_mtf {ag : SignalAggregator} {now : ℚ} {fetch : FetchFun}
    {signals : List Signal} {x : Signal} (hx : x ∈ ag.stage_mtf now fetch signals) :
    x ∈ signals := by
  unfold SignalAggregator.stage_mtf at hx
  by_cases he : ag.mtf_enabled
  · rw [if_pos he] at hx
    cases ha : ag.mtf_analyzer with
    | none =>
      rw [ha] at hx
      exact hx
    | some a =>
      rw [ha] at hx
      exact mem_mtf_keep hx
  · rw [if_neg he] at hx
    exact hx

/-- Everything returned by `filter_and_prioritize` was an input signal that
is not expired and whose strategy passed the cooldown gate (when a cooldown
system is wired). -/
theorem mem_filter_and_prioritize {ag : SignalAggregator} {now : ℚ}
    {fetch : FetchFun} {signals : List Signal} {total_open : Nat}
    {trades : List TradeInfo} {max_total : Nat} {x : Signal}
    (hx : x ∈ ag.filter_and_prioritize now fetch signals total_open trades max_total) :
    x ∈ signals ∧
      SignalAggregator.is_signal_expired ag.signal_timeout_minutes now x = false ∧
      (∀ g, ag.global_cooldown = some g → (g.can_operate x.strategy now).1 = true) := by
  unfold SignalAggregator.filter_and_prioritize at hx
  by_cases h0 : signals.isEmpty
  · rw [if_pos h0] at hx
    exact absurd hx (List.not_mem_nil x)
  rw [if_neg h0] at hx
  by_cases h1 : (ag.stage_fresh now signals).isEmpty
  · rw [if_pos h1] at hx
    exact absurd hx (List.not_mem_nil x)
  rw [if_neg h1] at hx
  by_cases h2 : (ag.stage_cooldown now (ag.stage_fresh now signals)).isEmpty
  · rw [if_pos h2] at hx
    exact absurd hx (List.not_mem_nil x)
  rw [if_neg h2] at hx
  have h3 := (mem_position_limit hx).1
  have h4 := mem_stage_mtf h3
  obtain ⟨h5, hcool⟩ := mem_stage_cooldown h4
  obtain ⟨h6, hfresh⟩ := mem_stage_fresh h5
  exact ⟨h6, hfresh, hcool⟩

/-- Unfolding equation for `analyze_all_timeframes`. -/
theorem MultiTimeframeAnalyzer.analyze_all_eq (a : MultiTimeframeAnalyzer)
    (now : ℚ) (fetch : FetchFun) :
    a.analyze_all_timeframes now fetch =
      if a.get_active_timeframes.length = 0 then
        { approved := false, direction := none }
      else if (a.bias_summary now fetch).all (fun b => b == Bias.bullish) then
        { approved := true, direction := some TradeDir.buy }
      else if (a.bias_summary now fetch).all (fun b => b == Bias.bearish) then
        { approved := true, direction := some TradeDir.sell }
      else { approved := false, direction := none } := rfl

/-- The bias list is empty exactly when no timeframe is active. -/
theorem bias_summary_eq_nil (a : MultiTimeframeAnalyzer) (now : ℚ) (fetch : FetchFun)
    (h : a.get_active_timeframes.length = 0) : a.bias_summary now fetch = [] := by
  unfold MultiTimeframeAnalyzer.bias_summary
  rw [List.length_eq_zero] at h
  rw [h]
  rfl

/-- A nonempty active set yields a nonempty bias list. -/
theorem bias_summary_ne_nil (a : MultiTimeframeAnalyzer) (now : ℚ) (fetch : FetchFun)
    (h : a.get_active_timeframes.length ≠ 0) : a.bias_summary now fetch ≠ [] := by
  unfold MultiTimeframeAnalyzer.bias_summary
  intro hmap
  apply h
  simpa using congrArg List.length hmap

/-- Claim C1: for every set of active horizons, `analyze_all_timeframes`
returns `approved = true` iff every active horizon's bias is identical and
non-neutral, and then the returned direction is the one matching that shared
bias; with zero active horizons (empty bias list) `approved` is always
false. -/
theorem C1_consensus_unanimity (a : MultiTimeframeAnalyzer) (now : ℚ) (fetch : FetchFun) :
    (((a.analyze_all_timeframes now fetch).approved = true) ↔
      (a.bias_summary now fetch ≠ [] ∧
        ∃ b, b ≠ Bias.neutral ∧ ∀ x ∈ a.bias_summary now fetch, x = b)) ∧
    (∀ b, b ≠ Bias.neutral → a.bias_summary now fetch ≠ [] →
      (∀ x ∈ a.bias_summary now fetch, x = b) →
      (a.analyze_all_timeframes now fetch).direction = b.toDir) := by
  have hall_b : ((a.bias_summary now fetch).all (fun b => b == Bias.bullish) = true) ↔
      ∀ x ∈ a.bias_summary now fetch, x = Bias.bullish := by
    simp [List.all_eq_true]
  have hall_r : ((a.bias_summary now fetch).all (fun b => b == Bias.bearish) = true) ↔
      ∀ x ∈ a.bias_summary now fetch, x = Bias.bearish := by
    simp [List.all_eq_true]
  rw [MultiTimeframeAnalyzer.analyze_all_eq]
  by_cases h0 : a.get_active_timeframes.length = 0
  · rw [if_pos h0]
    have hbs := bias_summary_eq_nil a now fetch h0
    constructor
    · simp [hbs]
    · intro b hb hne
      exact absurd hbs hne
  · rw [if_neg h0]
    have hbs_ne := bias_summary_ne_nil a now fetch h0
    by_cases h1 : (a.bias_summary now fetch).all (fun b => b == Bias.bullish) = true
    · rw [if_pos h1]
      constructor
      · constructor
        · intro _
          exact ⟨hbs_ne, Bias.bullish, by decide, hall_b.mp h1⟩
        · intro _
          rfl
      · intro b hb hne hforall
        obtain ⟨y, hy⟩ := List.exists_mem_of_ne_nil _ hbs_ne
        have hbbull : b = Bias.bullish := by
          rw [← hforall y hy, hall_b.mp h1 y hy]
        subst hbbull
        rfl
    · rw [if_neg h1]
      by_cases h2 : (a.bias_summary now fetch).all (fun b => b == Bias.bearish) = true
      · rw [if_pos h2]
        constructor
        · constructor
          · intro _
            exact ⟨hbs_ne, Bias.bearish, by decide, hall_r.mp h2⟩
          · intro _
            rfl
        · intro b hb hne hforall
          obtain ⟨y, hy⟩ := List.exists_mem_of_ne_nil _ hbs_ne
          have hbbear : b = Bias.bearish := by
            rw [← hforall y hy, hall_r.mp h2 y hy]
          subst hbbear
          rfl
      · rw [if_neg h2]
        constructor
        · constructor
          · intro happ
            exact absurd happ (by simp)
          · rintro ⟨hne, b, hb, hforall⟩
            cases b with
            | bullish => exact absurd (hall_b.mpr hforall) h1
            | bearish => exact absurd (hall_r.mpr hforall) h2
            | neutral => exact absurd rfl hb
        · intro b hb hne hforall
          cases b with
          | bullish => exact absurd (hall_b.mpr hforall) h1
          | bearish => exact absurd (hall_r.mpr hforall) h2
          | neutral => exact absurd rfl hb

/-- Witness for C1 at a concrete analyzer: one active bullish horizon is
approved with direction buy. -/
theorem C1_consensus_unanimity_witness :
    (mtfC1.analyze_all_timeframes 10 fetchNone).direction = Bias.bullish.toDir := by
  have hbs : mtfC1.bias_summary 10 fetchNone = [Bias.bullish] := by
    norm_num [MultiTimeframeAnalyzer.bias_summary,
      MultiTimeframeAnalyzer.get_active_timeframes, mtfC1, analyze_single_bias]
  exact (C1_consensus_unanimity mtfC1 10 fetchNone).2 Bias.bullish (by decide)
    (by rw [hbs]; exact List.cons_ne_nil _ _)
    (by rw [hbs]; intro x hx; simpa using hx)

/-- A stale-cache horizon whose fetch fails (or returns fewer than 50 rows)
is analysed as neutral. -/
theorem analyze_single_bias_neutral_of_no_data {now : ℚ} {st : TFState}
    {fetched : Option (Nat × TFRow)}
    (hstale : st.last_update = none ∨
      ∃ lu, st.last_update = some lu ∧ st.update_interval ≤ now - lu)
    (hdata : fetched = none ∨ ∃ n row, fetched = some (n, row) ∧ n < 50) :
    analyze_single_bias now st fetched = Bias.neutral := by
  unfold analyze_single_bias
  have hcache : (match st.last_update with
      | none => false
      | some lu => decide (now - lu < st.update_interval)) = false := by
    rcases hstale with h | ⟨lu, hlu, hle⟩
    · rw [h]
    · rw [hlu]
      simpa [decide_eq_false_iff_not] using not_lt.mpr hle
  rw [hcache]
  simp only [Bool.false_eq_true, if_false]
  rcases hdata with h | ⟨n, row, hrow, hn⟩
  · rw [h]
  · rw [hrow]
    simp [hn]

/-- Claim C4: if any active horizon has a stale (or absent) cache and its
fetch yields no data or fewer than 50 rows, the consensus verdict is not
approved, whatever the other horizons say — provider failure is
fail-closed. -/
theorem C4_fail_closed_data (a : MultiTimeframeAnalyzer) (now : ℚ) (fetch : FetchFun)
    (name : String) (st : TFState)
    (hmem : (name, st) ∈ a.timeframes) (hact : st.active = true)
    (hstale : st.last_update = none ∨
      ∃ lu, st.last_update = some lu ∧ st.update_interval ≤ now - lu)
    (hdata : fetch name = none ∨ ∃ n row, fetch name = some (n, row) ∧ n < 50) :
    (a.analyze_all_timeframes now fetch).approved = false := by
  have hactmem : (name, st) ∈ a.get_active_timeframes := by
    unfold MultiTimeframeAnalyzer.get_active_timeframes
    exact List.mem_filter.mpr ⟨hmem, by simpa using hact⟩
  have hneutral : Bias.neutral ∈ a.bias_summary now fetch := by
    unfold MultiTimeframeAnalyzer.bias_summary
    refine List.mem_map.mpr ⟨(name, st), hactmem, ?_⟩
    exact analyze_single_bias_neutral_of_no_data hstale hdata
  have h0 : ¬ a.get_active_timeframes.length = 0 := by
    intro h
    rw [List.length_eq_zero] at h
    rw [h] at hactmem
    exact List.not_mem_nil _ hactmem
  have h1 : ¬ (a.bias_summary now fetch).all (fun b => b == Bias.bullish) = true := by
    intro h
    have := List.all_eq_true.mp h _ hneutral
    simp at this
  have h2 : ¬ (a.bias_summary now fetch).all (fun b => b == Bias.bearish) = true := by
    intro h
    have := List.all_eq_true.mp h _ hneutral
    simp at this
  rw [MultiTimeframeAnalyzer.analyze_all_eq, if_neg h0, if_neg h1, if_neg h2]

/-- Witness for C4 at a concrete analyzer: the failed H1 fetch blocks
approval even though M30 is bullish. -/
theorem C4_fail_closed_data_witness :
    (mtfC4.analyze_all_timeframes 10 fetchNone).approved = false :=
  C4_fail_closed_data mtfC4 10 fetchNone tfH1 stC4
    (by simp [mtfC4]) rfl (Or.inl rfl) (Or.inl rfl)

/-- Unfolding equation for `can_operate` on a configured strategy. -/
theorem can_operate_eq_of_lookup (g : GlobalStrategyCooldown) (s : String) (now : ℚ)
    (c : CooldownEntry) (hc : g.entries.lookup s = some c) :
    g.can_operate s now =
      match c.last_op with
      | none => (true, .first_operation, 0)
      | some last =>
        if (now - last) / 60 ≥ c.cooldown then (true, .cooldown_complete, 0)
        else (false, .in_cooldown, c.cooldown - (now - last) / 60) := by
  unfold GlobalStrategyCooldown.can_operate
  rw [hc]

/-- `can_operate` on a configured strategy with a recorded operation. -/
theorem can_operate_eq_of_lookup_some (g : GlobalStrategyCooldown) (s : String)
    (now : ℚ) (c : CooldownEntry) (last : ℚ) (hc : g.entries.lookup s = some c)
    (hlast : c.last_op = some last) :
    g.can_operate s now =
      if (now - last) / 60 ≥ c.cooldown then (true, .cooldown_complete, 0)
      else (false, .in_cooldown, c.cooldown - (now - last) / 60) := by
  rw [can_operate_eq_of_lookup g s now c hc, hlast]

/-- Registration of a configured strategy stamps its entry. -/
theorem register_operation_lookup (g : GlobalStrategyCooldown) (s : String) (now : ℚ)
    (c : CooldownEntry) (hc : g.entries.lookup s = some c) :
    (g.register_operation s now).entries.lookup s =
      some { c with last_op := some now, allowed := c.allowed + 1 } := by
  unfold GlobalStrategyCooldown.register_operation
  rw [hc]
  exact lookup_assoc_set_self hc

/-- Registration of an unconfigured strategy is a no-op. -/
theorem register_operation_unknown (g : GlobalStrategyCooldown) (s : String) (now : ℚ)
    (h : g.entries.lookup s = none) : g.register_operation s now = g := by
  unfold GlobalStrategyCooldown.register_operation
  rw [h]

/-- Claim C2: for a strategy with a configured cooldown, the gate passes iff
no operation is recorded or the elapsed minutes reach the configured
cooldown; after a registered execution at `t1`, a pass at `t2` forces at
least the configured cooldown between them; and a signal blocked by the
gate never survives `filter_and_prioritize`, whatever its confidence. -/
theorem C2_cooldown_gate (g : GlobalStrategyCooldown) (s : String) (c : CooldownEntry)
    (hc : g.entries.lookup s = some c) :
    (∀ now : ℚ, ((g.can_operate s now).1 = true ↔
      c.last_op = none ∨ ∃ t, c.last_op = some t ∧ (now - t) / 60 ≥ c.cooldown)) ∧
    (∀ t1 t2 : ℚ, ((g.register_operation s t1).can_operate s t2).1 = true →
      (t2 - t1) / 60 ≥ c.cooldown) ∧
    (∀ (ag : SignalAggregator) (now : ℚ) (fetch : FetchFun) (signals : List Signal)
      (total_open : Nat) (trades : List TradeInfo) (max_total : Nat) (x : Signal),
      ag.global_cooldown = some g →
      (g.can_operate x.strategy now).1 = false →
      x ∉ ag.filter_and_prioritize now fetch signals total_open trades max_total) := by
  refine ⟨?_, ?_, ?_⟩
  · intro now
    rw [can_operate_eq_of_lookup g s now c hc]
    cases hop : c.last_op with
    | none => simp
    | some t =>
      by_cases hge : (now - t) / 60 ≥ c.cooldown
      · simp [hge]
      · simp [hge]
  · intro t1 t2 h
    have hreg := register_operation_lookup g s t1 c hc
    rw [can_operate_eq_of_lookup_some _ s t2 _ t1 hreg rfl] at h
    by_cases hge : (t2 - t1) / 60 ≥ c.cooldown
    · exact hge
    · rw [if_neg hge] at h
      exact absurd h (by simp)
  · intro ag now fetch signals total_open trades max_total x hag hfalse hmem
    obtain ⟨_, _, hcool⟩ := mem_filter_and_prioritize hmem
    have htrue := hcool g hag
    rw [htrue] at hfalse
    exact Bool.noConfusion hfalse

/-- Witness for C2 at the initial state: `'ml'` has no recorded operation,
so its first signal passes the gate. -/
theorem C2_cooldown_gate_witness :
    (GlobalStrategyCooldown.init.can_operate strML 0).1 = true :=
  ((C2_cooldown_gate GlobalStrategyCooldown.init strML mlEntry rfl).1 0).mpr
    (Or.inl rfl)

/-- Counterexample for C7: the cooldown gate passes a signal from the
unconfigured source `"news"` — unknown sources are fail-open, not rejected. -/
theorem C7_counterexample :
    (GlobalStrategyCooldown.init.can_operate strUnknown 0).1 = true := rfl

/-- Claim C7 as amended: an unknown source name is not rejected anywhere in
the cooldown machinery — `can_operate` passes any strategy outside the
configured set unconditionally (fail-open) and `register_operation` ignores
it. -/
theorem C7_unknown_source_amended (g : GlobalStrategyCooldown) (s : String) (now : ℚ)
    (h : g.entries.lookup s = none) :
    (g.can_operate s now).1 = true ∧ g.register_operation s now = g := by
  constructor
  · unfold GlobalStrategyCooldown.can_operate
    rw [h]
  · exact register_operation_unknown g s now h

/-- Witness for the amended C7 at the initial state and source `"news"`. -/
theorem C7_unknown_source_amended_witness :
    (GlobalStrategyCooldown.init.can_operate strUnknown 5).1 = true ∧
      GlobalStrategyCooldown.init.register_operation strUnknown 5 =
        GlobalStrategyCooldown.init :=
  C7_unknown_source_amended GlobalStrategyCooldown.init strUnknown 5 rfl

/-- Counterexample for C8: registering the same execution twice is not
idempotent — after the second registration of `'ml'` at the same instant,
the per-source allowed counter is 2, not the 1 it held after the first. -/
theorem C8_counterexample :
    ¬ (((GlobalStrategyCooldown.init.register_operation strML 0).register_operation
          strML 0).allowed_count strML =
        (GlobalStrategyCooldown.init.register_operation strML 0).allowed_count strML) := by
  intro h
  have h2 : ((GlobalStrategyCooldown.init.register_operation strML 0).register_operation
      strML 0).allowed_count strML = 2 := rfl
  have h1 : (GlobalStrategyCooldown.init.register_operation strML 0).allowed_count
      strML = 1 := rfl
  rw [h2, h1] at h
  exact absurd h (by decide)

/-- Claim C8 as amended: double registration never shortens the effective
cooldown window — whenever the gate passes after the re-registration it
would also have passed under the single registration — but the accounting is
not idempotent: the allowed counter advances by two and the stamp moves to
the second registration time. -/
theorem C8_register_idempotency_amended (g : GlobalStrategyCooldown) (s : String)
    (t t' : ℚ) (hle : t ≤ t') :
    (∀ t2 : ℚ, (((g.register_operation s t).register_operation s t').can_operate
        s t2).1 = true →
      ((g.register_operation s t).can_operate s t2).1 = true) ∧
    (∀ c : CooldownEntry, g.entries.lookup s = some c →
      ((g.register_operation s t).register_operation s t').entries.lookup s =
        some { c with last_op := some t', allowed := c.allowed + 2 }) := by
  constructor
  · intro t2 h
    cases hc : g.entries.lookup s with
    | none =>
      rw [register_operation_unknown g s t hc] at h ⊢
      rw [register_operation_unknown g s t' hc] at h
      exact h
    | some c =>
      have hreg1 := register_operation_lookup g s t c hc
      have hreg2 := register_operation_lookup _ s t' _ hreg1
      rw [can_operate_eq_of_lookup_some _ s t2 _ t' hreg2 rfl] at h
      rw [can_operate_eq_of_lookup_some _ s t2 _ t hreg1 rfl]
      by_cases hge2 : (t2 - t') / 60 ≥ c.cooldown
      · have hge1 : (t2 - t) / 60 ≥ c.cooldown := by
          refine le_trans hge2 ?_
          have hsub : t2 - t' ≤ t2 - t := sub_le_sub_left hle t2
          exact (div_le_div_iff_of_pos_right (by norm_num)).mpr hsub
        rw [if_pos hge1]
      · rw [if_neg hge2] at h
        exact absurd h (by simp)
  · intro c hc
    have hreg1 := register_operation_lookup g s t c hc
    have hreg2 := register_operation_lookup _ s t' _ hreg1
    simpa using hreg2

/-- Witness for the amended C8 at the initial state: double registration of
`'ml'` at times 0 and 0 leaves the entry stamped at 0 with counter 2. -/
theorem C8_register_idempotency_amended_witness :
    ((GlobalStrategyCooldown.init.register_operation strML 0).register_operation
        strML 0).entries.lookup strML =
      some { mlEntry with last_op := some 0, allowed := mlEntry.allowed + 2 } :=
  (C8_register_idempotency_amended GlobalStrategyCooldown.init strML 0 0
    (le_refl 0)).2 mlEntry rfl

/-- Claim C3: `is_signal_expired` holds exactly on signals with no
generation timestamp (fail-closed) or with age strictly above the maximum,
and an expired signal never survives `filter_and_prioritize`, whatever the
later gates would have said. -/
theorem C3_freshness (t_max now : ℚ) (s : Signal) :
    (SignalAggregator.is_signal_expired t_max now s = true ↔
      s.timestamp = none ∨ ∃ t, s.timestamp = some t ∧ (now - t) / 60 > t_max) ∧
    (∀ (ag : SignalAggregator) (fetch : FetchFun) (signals : List Signal)
      (total_open : Nat) (trades : List TradeInfo) (max_total : Nat),
      ag.signal_timeout_minutes = t_max →
      SignalAggregator.is_signal_expired t_max now s = true →
      s ∉ ag.filter_and_prioritize now fetch signals total_open trades max_total) := by
  constructor
  · unfold SignalAggregator.is_signal_expired
    cases hop : s.timestamp with
    | none => simp
    | some t => simp
  · intro ag fetch signals total_open trades max_total htm hexp hmem
    obtain ⟨_, hfresh, _⟩ := mem_filter_and_prioritize hmem
    rw [htm, hexp] at hfresh
    exact Bool.noConfusion hfresh

/-- Witness for C3: the timestampless signal is dropped by the pipeline. -/
theorem C3_freshness_witness :
    sigC3 ∉ agC3.filter_and_prioritize 0 fetchNone [sigC3] 0 [] 10 :=
  (C3_freshness 2 0 sigC3).2 agC3 fetchNone [sigC3] 0 [] 10 rfl rfl

/-- Counterexample for C5: with one remaining global slot and two buy
signals, the source limiter keeps the first-collected signal `sigA`
(arrival order, buys first, slot check before the sort), while the
specification's reject-sort-truncate pipeline keeps the higher-priority
`sigB`. -/
theorem C5_counterexample :
    position_limit MAX_POSITIONS_PER_STRATEGY [sigA, sigB] 0 [] 1 = [sigA] ∧
      spec_position_limiter MAX_POSITIONS_PER_STRATEGY [sigA, sigB] 0 [] 1 = [sigB] := by
  constructor
  · norm_num [position_limit, process_buy_signals, process_sell_signals,
      strategy_count, sigA, sigB, strSR, strLiquidity, MAX_POSITIONS_PER_STRATEGY,
      List.insertionSort, List.orderedInsert, List.lookup]
  · norm_num [spec_position_limiter, strategy_count, sigA, sigB, strSR,
      strLiquidity, MAX_POSITIONS_PER_STRATEGY, List.insertionSort,
      List.orderedInsert, prio_le, List.lookup]

/-- Claim C5 as amended: the limiter (a) returns `[]` when the global cap is
already reached, (b) keeps only signals whose source is below its
per-strategy cap, (c) returns a list sorted by `(priority ascending,
confidence descending)`, and (d) never exceeds the remaining global slots —
but the kept set is accumulated greedily in arrival order (buys before
sells) against the remaining slots, not chosen as the top-ranked survivors. -/
theorem C5_position_limiter_amended (mx : List (String × Nat)) (signals : List Signal)
    (total_open : Nat) (trades : List TradeInfo) (max_total : Nat) :
    (total_open ≥ max_total →
      position_limit mx signals total_open trades max_total = []) ∧
    (∀ x ∈ position_limit mx signals total_open trades max_total,
      x ∈ signals ∧
        strategy_count trades x.strategy < (mx.lookup x.strategy).getD 2) ∧
    (position_limit mx signals total_open trades max_total).Sorted prio_le ∧
    (position_limit mx signals total_open trades max_total).length ≤
      max_total - total_open := by
  refine ⟨?_, ?_, ?_, ?_⟩
  · intro h
    unfold position_limit
    rw [if_pos h]
  · intro x hx
    exact mem_position_limit hx
  · unfold position_limit
    by_cases h : total_open ≥ max_total
    · rw [if_pos h]
      exact List.sorted_nil
    · rw [if_neg h]
      exact List.Pairwise.sublist (List.take_sublist _ _)
        (List.sorted_insertionSort prio_le _)
  · unfold position_limit
    by_cases h : total_open ≥ max_total
    · rw [if_pos h]
      exact Nat.zero_le _
    · rw [if_neg h]
      exact (List.length_take _ _).le.trans (min_le_left _ _)

/-- Witness for the amended C5: a full book yields an empty finalist list. -/
theorem C5_position_limiter_amended_witness :
    position_limit MAX_POSITIONS_PER_STRATEGY [sigA] 10 [] 10 = [] :=
  (C5_position_limiter_amended MAX_POSITIONS_PER_STRATEGY [sigA] 10 [] 10).1
    (le_refl 10)

/-- Counterexample for C6: with one open same-direction trade whose stop is
inside the tolerance band, accepting the finalist pushes the similar-stop
cluster to two — the claim says reject — yet the source approves, because it
only blocks when two such trades already exist. -/
theorem C6_counterexample :
    ¬ (((CorrelationManager.init.check_signal_correlation sigC6 1 [tradeC6]
          100000).1 = false) ↔
        spec_correlation_reject CorrelationManager.init sigC6 [tradeC6] 100000) := by
  intro h
  have hreject : spec_correlation_reject CorrelationManager.init sigC6 [tradeC6]
      100000 := by
    apply Or.inl
    norm_num [close_sl_count, CorrelationManager.init, sigC6, tradeC6]
  have hfalse := h.mpr hreject
  have htrue : (CorrelationManager.init.check_signal_correlation sigC6 1 [tradeC6]
      100000).1 = true := by
    norm_num [CorrelationManager.check_signal_correlation, CorrelationManager.risk_step,
      close_sl_count, aggregate_risk, CorrelationManager.init, sigC6, tradeC6]
  rw [htrue] at hfalse
  exact Bool.noConfusion hfalse

/-- Claim C6 as amended: the guard rejects iff the raw position list is
non-empty and at least two already-open trades in the same direction have
stops within the tolerance band of the new signal's (so acceptance would
make the cluster three or more), or the balance is positive and the summed
risk of the open trades plus the new signal exceeds the maximum percentage
of the balance. -/
theorem C6_correlation_guard_amended (cm : CorrelationManager) (s : Signal)
    (np : Nat) (trades : List TradeInfo) (bal : ℚ) :
    (cm.check_signal_correlation s np trades bal).1 = false ↔
      (0 < np ∧ 2 ≤ close_sl_count cm s.signal (s.sl_pips.getD 70) trades) ∨
      (0 < bal ∧ aggregate_risk (s.sl_pips.getD 70) trades / bal * 100 >
        cm.max_total_risk_pct) := by
  unfold CorrelationManager.check_signal_correlation CorrelationManager.risk_step
  by_cases h1 : np > 0
  · rw [if_pos h1]
    by_cases h2 : close_sl_count cm s.signal (s.sl_pips.getD 70) trades ≥ 2
    · rw [if_pos h2]
      simp [h1, h2]
    · rw [if_neg h2]
      by_cases h3 : bal > 0
      · rw [if_pos h3]
        by_cases h4 : aggregate_risk (s.sl_pips.getD 70) trades / bal * 100 >
            cm.max_total_risk_pct
        · rw [if_pos h4]
          simp [h1, h2, h3, h4]
        · rw [if_neg h4]
          simp [h2, h3, h4]
      · rw [if_neg h3]
        simp [h2, h3]
  · rw [if_neg h1]
    by_cases h3 : bal > 0
    · rw [if_pos h3]
      by_cases h4 : aggregate_risk (s.sl_pips.getD 70) trades / bal * 100 >
          cm.max_total_risk_pct
      · rw [if_pos h4]
        simp [h1, h3, h4]
      · rw [if_neg h4]
        simp [h1, h3, h4]
    · rw [if_neg h3]
      simp [h1, h3]

/-- Claim C9: for every configuration and trade history — hence every
drawdown and win rate, defensive mode included — `should_allow_trade`
allows the trade; the equity gate never blocks, it only rescales. -/
theorem C9_equity_never_blocks (cfg : EquityConfig)
    (recent_trades : List TradeRecord) :
    (should_allow_trade cfg recent_trades).1 = true := rfl

/-- Cumulative sums of nonpositive amounts started from a nonpositive
accumulator stay nonpositive. -/
theorem cumulative_from_nonpos :
    ∀ (l : List ℚ) (acc : ℚ), (∀ x ∈ l, x ≤ 0) → acc ≤ 0 →
      ∀ y ∈ cumulative_from acc l, y ≤ 0 := by
  intro l
  induction l with
  | nil =>
    intro acc _ _ y hy
    exact absurd hy (List.not_mem_nil y)
  | cons p rest ih =>
    intro acc hl hacc y hy
    have hp : p ≤ 0 := hl p (List.mem_cons_self _ _)
    simp only [cumulative_from] at hy
    rcases List.mem_cons.mp hy with h | h
    · rw [h]
      exact add_nonpos hacc hp
    · exact ih (acc + p) (fun x hx => hl x (List.mem_cons_of_mem _ hx))
        (add_nonpos hacc hp) y h

/-- Python `max` of a list of nonpositive rationals is nonpositive. -/
theorem list_max_nonpos {l : List ℚ} (h : ∀ y ∈ l, y ≤ 0) : list_max l ≤ 0 := by
  cases l with
  | nil => exact le_refl 0
  | cons x xs =>
    have hfold : ∀ (ys : List ℚ) (a : ℚ), a ≤ 0 → (∀ y ∈ ys, y ≤ 0) →
        ys.foldl max a ≤ 0 := by
      intro ys
      induction ys with
      | nil => intro a ha _; exact ha
      | cons y ys ih =>
        intro a ha hys
        simp only [List.foldl_cons]
        exact ih (max a y) (max_le ha (hys y (List.mem_cons_self _ _)))
          (fun z hz => hys z (List.mem_cons_of_mem _ hz))
    exact hfold xs x (h x (List.mem_cons_self _ _))
      (fun z hz => h z (List.mem_cons_of_mem _ hz))

/-- A cumulative-profit peak at or below zero reports zero drawdown. -/
theorem drawdown_pct_eq_zero_of_peak_nonpos (recent_trades : List TradeRecord)
    (hpeak : list_max (cumulative_profits recent_trades) ≤ 0) :
    (calculate_current_metrics recent_trades).drawdown_pct = 0 := by
  unfold calculate_current_metrics
  by_cases he : recent_trades.isEmpty
  · rw [if_pos he]
  · rw [if_neg he]
    show drawdown_of (cumulative_profits recent_trades) = 0
    unfold drawdown_of
    by_cases hce : (cumulative_profits recent_trades).isEmpty
    · rw [if_pos hce]
    · rw [if_neg hce, if_neg (not_lt.mpr hpeak)]

/-- Claim C10: whenever the cumulative-profit series never rises above zero
its reported drawdown is zero, so a loss-only history can never trip the
(positive) defensive drawdown trigger of `determine_trading_mode`. -/
theorem C10_loss_only_drawdown (recent_trades : List TradeRecord) :
    (list_max (cumulative_profits recent_trades) ≤ 0 →
      (calculate_current_metrics recent_trades).drawdown_pct = 0) ∧
    (∀ cfg : EquityConfig, 0 < cfg.defensive_drawdown_threshold →
      (∀ t ∈ recent_trades, t.profit.getD 0 ≤ 0) →
      determine_trading_mode cfg recent_trades ≠ TradingMode.defensive) := by
  constructor
  · exact drawdown_pct_eq_zero_of_peak_nonpos recent_trades
  · intro cfg hthr hloss
    have hall : ∀ y ∈ cumulative_profits recent_trades, y ≤ 0 := by
      intro y hy
      unfold cumulative_profits at hy
      refine cumulative_from_nonpos _ 0 ?_ (le_refl 0) y hy
      intro x hx
      obtain ⟨t, ht, hxt⟩ := List.mem_map.mp hx
      rw [← hxt]
      exact hloss t (List.mem_reverse.mp ht)
    have hdd := drawdown_pct_eq_zero_of_peak_nonpos recent_trades (list_max_nonpos hall)
    unfold determine_trading_mode
    rw [hdd]
    rw [if_neg (by simpa using not_le.mpr hthr)]
    by_cases hagg : (calculate_current_metrics recent_trades).winrate ≥
        cfg.aggressive_winrate_threshold ∧ (0 : ℚ) < 5
    · rw [if_pos hagg]
      exact fun h => TradingMode.noConfusion h
    · rw [if_neg hagg]
      exact fun h => TradingMode.noConfusion h

/-- Witness for C10: a single losing trade leaves the monitor out of
defensive mode under the default thresholds. -/
theorem C10_loss_only_drawdown_witness :
    determine_trading_mode EquityConfig.init [tradeC10] ≠ TradingMode.defensive :=
  (C10_loss_only_drawdown [tradeC10]).2 EquityConfig.init
    (by norm_num [EquityConfig.init])
    (by
      intro t ht
      have h : t = tradeC10 := by simpa using ht
      rw [h]
      norm_num [tradeC10])
